import Mathlib

/-!
Shallow embedding of the credential lifecycle subsystem: the PUT
/changePassword route (src/routes/auth/changePassword.ts) and the PUT
/forgotPassword route.  Each Express middleware chain is embedded as a
total Lean function from an environment (store failure oracles, entropy
source, signing secret), a database snapshot, and a request body to an
outcome recording the HTTP response, the resulting database, and how
many statements reached the connection pool.  The helpers imported from
core/utilities (isStringProvided, generateSalt, generateHash) and the
jsonwebtoken sign call are not part of the supplied sources, so they are
modelled from the spec, as marked on each such definition.
-/

/-- A row of the Account table: identifier plus the identity attributes
used by the two resolvers. -/
structure Account where
  account_id : Int
  username : String
  email : String
  phone : String
deriving DecidableEq

/-- Modelled from the spec: the salted hash produced by
credentialingFunctions.generateHash is a one-way digest of
(password, salt); it is modelled as the formal pair of its inputs, which
keeps exactly the information the digest determines. -/
structure Hash where
  password : String
  salt : List Nat
deriving DecidableEq

/-- A row of the Account_Credential table: the (salt, salted hash) pair
owned by one account. -/
structure Credential where
  account_id : Int
  salted_hash : Hash
  salt : List Nat
deriving DecidableEq

/-- The Account Store: the Account rows and the Account_Credential rows. -/
structure Database where
  accounts : List Account
  credentials : List Credential
deriving DecidableEq

/-- The signed bearer artifact returned on success: payload is the
account identifier, signed with the server secret, with a fixed
expiry in minutes. -/
structure ResetToken where
  id : Int
  secret : String
  expiresInMinutes : Nat
deriving DecidableEq

/-- Request-independent environment: whether the SELECT rejects, whether
the UPDATE rejects, the entropy source feeding generateSalt, and the
process-wide signing secret. -/
structure Env where
  lookupFails : Bool
  updateFails : Bool
  rng : Nat → Nat
  secret : String

/-- The JSON response sent to the client. -/
structure Response where
  status : Nat
  message : String
  resetToken : Option ResetToken
deriving DecidableEq

/-- What one request produces: the response, the database after the
request, and the number of statements issued to the pool. -/
structure Outcome where
  response : Response
  db : Database
  storeQueries : Nat
deriving DecidableEq

/-- Modelled from the spec: validationFunctions.isStringProvided, absent
from the supplied sources.  Per the spec (and the routers' inline
comment that empty strings or null values evaluate to false), a field is
provided iff it is present and non-empty. -/
def isStringProvided (s : Option String) : Bool :=
  match s with
  | none => false
  | some v => decide (v ≠ "")

/-- Modelled from the spec: credentialingFunctions.generateSalt, absent
from the supplied sources; it draws n bytes of randomness from the
entropy source. -/
def generateSalt (rng : Nat → Nat) (n : Nat) : List Nat :=
  (List.range n).map (fun i => rng i % 256)

/-- Modelled from the spec: credentialingFunctions.generateHash, absent
from the supplied sources; derives the salted hash of a password with a
given salt (see Hash). -/
def generateHash (password : String) (salt : List Nat) : Hash :=
  ⟨password, salt⟩

/-- Modelled from the spec: the collaborator interface
sign(payload, secret, ttl) -> token of the jsonwebtoken library. -/
def jwtSign (id : Int) (secret : String) (expiresInMinutes : Nat) : ResetToken :=
  ⟨id, secret, expiresInMinutes⟩

/-- The UPDATE Account_Credential SET salted_hash = $1, salt = $2
WHERE account_id = $3 statement: every credential row of the given
account gets the new pair, every other row is untouched. -/
def updateCredential (db : Database) (id : Int) (saltedHash : Hash) (salt : List Nat) :
    Database :=
  ⟨db.accounts,
   db.credentials.map
     (fun c => if c.account_id == id then ⟨c.account_id, saltedHash, salt⟩ else c)⟩

/-- Character class of the regex [!@#$%^&*()_+=-]. -/
def isSpecialChar (c : Char) : Bool :=
  c == '!' || c == '@' || c == '#' || c == '$' || c == '%' || c == '^' ||
  c == '&' || c == '*' || c == '(' || c == ')' || c == '_' || c == '+' ||
  c == '=' || c == '-'

/-- Character class of the regex \d. -/
def isDigitChar (c : Char) : Bool :=
  '0' ≤ c && c ≤ '9'

/-- Character class of the regex [a-z]. -/
def isLowerChar (c : Char) : Bool :=
  'a' ≤ c && c ≤ 'z'

/-- Character class of the regex [A-Z]. -/
def isUpperChar (c : Char) : Bool :=
  'A' ≤ c && c ≤ 'Z'

namespace ChangePassword

/-- The request body fields read by the /changePassword route; a missing
JSON field is none. -/
structure Body where
  username : Option String
  password : Option String
  newPassword : Option String
  confirmNewPassword : Option String
deriving DecidableEq

/-- isValidNewPassword from changePassword.ts: provided, length 8 to 24,
and one character from each of the four regex classes. -/
def isValidNewPassword (newPassword : String) : Bool :=
  isStringProvided (some newPassword) &&
  decide (newPassword.length ≥ 8) &&
  decide (newPassword.length ≤ 24) &&
  newPassword.data.any isSpecialChar &&
  newPassword.data.any isDigitChar &&
  newPassword.data.any isLowerChar &&
  newPassword.data.any isUpperChar

/-- SELECT account_id FROM Account WHERE username = $1. -/
def lookupAccount (db : Database) (username : String) : List Account :=
  db.accounts.filter (fun a => a.username == username)

/-- The /changePassword middleware chain: required fields, new-password
policy, username lookup, falsiness guard on the stashed id, then the
credential update and token issuance. -/
def changePasswordHandler (env : Env) (db : Database) (body : Body) : Outcome :=
  if !(isStringProvided body.username && isStringProvided body.password &&
      isStringProvided body.newPassword && isStringProvided body.confirmNewPassword) then
    ⟨⟨400, "Missing required information", none⟩, db, 0⟩
  else if !(isValidNewPassword (body.newPassword.getD "")) then
    ⟨⟨400, "Invalid New Password  - please refer to documentation", none⟩, db, 0⟩
  else if env.lookupFails then
    ⟨⟨500, "DB server error - contact support", none⟩, db, 1⟩
  else
    match lookupAccount db (body.username.getD "") with
    | [] =>
      ⟨⟨400, "User does not exist within the database with the provided inputs", none⟩,
       db, 1⟩
    | a :: _ =>
      if a.account_id == 0 then
        ⟨⟨500, "Server error - contact support", none⟩, db, 1⟩
      else
        let salt := generateSalt env.rng 32
        let saltedHash := generateHash (body.newPassword.getD "") salt
        if env.updateFails then
          ⟨⟨500, "Server error - contact support", none⟩, db, 2⟩
        else
          ⟨⟨200, "Password updated successfully", some (jwtSign a.account_id env.secret 15)⟩,
           updateCredential db a.account_id saltedHash salt, 2⟩

end ChangePassword

namespace ForgotPassword

/-- The request body fields read by the /forgotPassword route; a missing
JSON field is none. -/
structure Body where
  username : Option String
  email : Option String
  phone : Option String
  newPassword : Option String
  confirmNewPassword : Option String
deriving DecidableEq

/-- isValidNewPassword from the forgot-password router: length 8 to 24
and one character from each of the four regex classes. -/
def isValidNewPassword (newPassword : String) : Bool :=
  decide (newPassword.length ≥ 8) &&
  decide (newPassword.length ≤ 24) &&
  newPassword.data.any isSpecialChar &&
  newPassword.data.any isDigitChar &&
  newPassword.data.any isLowerChar &&
  newPassword.data.any isUpperChar

/-- isValidPhone: the regex ^\d{3}-\d{3}-\d{4}$. -/
def isValidPhone (phone : String) : Bool :=
  match phone.data with
  | [a, b, c, d1, e, f, g, d2, h, i, j, k] =>
    isDigitChar a && isDigitChar b && isDigitChar c && (d1 == '-') &&
    isDigitChar e && isDigitChar f && isDigitChar g && (d2 == '-') &&
    isDigitChar h && isDigitChar i && isDigitChar j && isDigitChar k
  | _ => false

/-- isValidEmail: the string contains an @ character. -/
def isValidEmail (email : String) : Bool :=
  email.data.any (fun c => c == '@')

/-- SELECT account_id FROM Account
WHERE username = $1 AND email = $2 AND phone = $3. -/
def lookupAccount (db : Database) (username email phone : String) : List Account :=
  db.accounts.filter
    (fun a => a.username == username && a.email == email && a.phone == phone)

/-- The /forgotPassword middleware chain: required fields, new-password
policy then confirmation match, email shape, phone shape, triple lookup,
falsiness guard on the stashed id, then the credential update and token
issuance. -/
def forgotPasswordHandler (env : Env) (db : Database) (body : Body) : Outcome :=
  if !(isStringProvided body.username && isStringProvided body.email &&
      isStringProvided body.newPassword && isStringProvided body.confirmNewPassword &&
      isStringProvided body.phone) then
    ⟨⟨400, "Missing a parameter", none⟩, db, 0⟩
  else if !(isValidNewPassword (body.newPassword.getD "")) then
    ⟨⟨400, "Invalid new password - please refer to documentation", none⟩, db, 0⟩
  else if !(body.newPassword.getD "" == body.confirmNewPassword.getD "") then
    ⟨⟨400, "The passwords do not match", none⟩, db, 0⟩
  else if !(isValidEmail (body.email.getD "")) then
    ⟨⟨400, "Invalid email - please refer to registration documentation", none⟩, db, 0⟩
  else if !(isValidPhone (body.phone.getD "")) then
    ⟨⟨400, "Invalid phone number - please refer to registration documentation", none⟩, db, 0⟩
  else if env.lookupFails then
    ⟨⟨500, "Unexpected issue on account retrieval in the database", none⟩, db, 1⟩
  else
    match lookupAccount db (body.username.getD "") (body.email.getD "") (body.phone.getD "") with
    | [] =>
      ⟨⟨404, "User does not exist within the Database", none⟩, db, 1⟩
    | a :: _ =>
      if a.account_id == 0 then
        ⟨⟨500, "Unexpected issue on retrieving user in the database", none⟩, db, 1⟩
      else
        let salt := generateSalt env.rng 32
        let saltedHash := generateHash (body.newPassword.getD "") salt
        if env.updateFails then
          ⟨⟨500, "Unexpected issue on updating password in the database", none⟩, db, 2⟩
        else
          ⟨⟨200, "Password updated successfully", some (jwtSign a.account_id env.secret 15)⟩,
           updateCredential db a.account_id saltedHash salt, 2⟩

end ForgotPassword

/-- Fixed entropy source used in concrete scenarios. -/
def rng0 : Nat → Nat := fun _ => 7

/-- Environment in which both store statements succeed. -/
def envOK : Env := ⟨false, false, rng0, "serverSecret"⟩

/-- Environment in which the credential UPDATE fails. -/
def envUpdateFail : Env := ⟨false, true, rng0, "serverSecret"⟩

/-- Environment in which the account SELECT fails. -/
def envLookupFail : Env := ⟨true, false, rng0, "serverSecret"⟩

/-- Concrete account used in scenarios. -/
def alice : Account := ⟨1, "alice", "a@x.com", "123-456-7890"⟩

/-- Concrete account used in scenarios. -/
def bob : Account := ⟨7, "bob", "b@x.com", "360-555-0100"⟩

/-- Concrete account whose identifier is the number 0. -/
def zed : Account := ⟨0, "zed", "z@x.com", "111-222-3333"⟩

/-- Concrete database holding the three scenario accounts and the
credentials of the first two. -/
def db0 : Database :=
  ⟨[alice, bob, zed],
   [⟨1, generateHash "OldAlice1!" [9, 9], [9, 9]⟩,
    ⟨7, generateHash "OldBob1!" [8], [8]⟩]⟩

/-! ### Helper lemmas -/

lemma isStringProvided_some {s : String} (h : s ≠ "") :
    isStringProvided (some s) = true := by
  simp [isStringProvided, h]

lemma generateSalt_length (rng : Nat → Nat) (n : Nat) :
    (generateSalt rng n).length = n := by
  simp [generateSalt]

lemma ne_empty_of_eight_le {s : String} (h : 8 ≤ s.length) : s ≠ "" := by
  intro he
  subst he
  exact absurd h (by decide)

lemma CP_isValidNewPassword_iff (s : String) :
    ChangePassword.isValidNewPassword s = true ↔
      (8 ≤ s.length ∧ s.length ≤ 24 ∧
       (∃ c ∈ s.data, isUpperChar c = true) ∧
       (∃ c ∈ s.data, isLowerChar c = true) ∧
       (∃ c ∈ s.data, isDigitChar c = true) ∧
       (∃ c ∈ s.data, isSpecialChar c = true)) := by
  simp only [ChangePassword.isValidNewPassword, isStringProvided, Bool.and_eq_true,
    decide_eq_true_eq, List.any_eq_true]
  constructor
  · intro h
    tauto
  · intro h
    have h0 : s ≠ "" := ne_empty_of_eight_le h.1
    tauto

lemma FP_isValidNewPassword_iff (s : String) :
    ForgotPassword.isValidNewPassword s = true ↔
      (8 ≤ s.length ∧ s.length ≤ 24 ∧
       (∃ c ∈ s.data, isUpperChar c = true) ∧
       (∃ c ∈ s.data, isLowerChar c = true) ∧
       (∃ c ∈ s.data, isDigitChar c = true) ∧
       (∃ c ∈ s.data, isSpecialChar c = true)) := by
  simp only [ForgotPassword.isValidNewPassword, Bool.and_eq_true,
    decide_eq_true_eq, List.any_eq_true]
  tauto

lemma FP_CP_isValidNewPassword (s : String) :
    ForgotPassword.isValidNewPassword s = ChangePassword.isValidNewPassword s := by
  by_cases h : 8 ≤ s.length ∧ s.length ≤ 24 ∧
      (∃ c ∈ s.data, isUpperChar c = true) ∧ (∃ c ∈ s.data, isLowerChar c = true) ∧
      (∃ c ∈ s.data, isDigitChar c = true) ∧ (∃ c ∈ s.data, isSpecialChar c = true)
  · rw [(FP_isValidNewPassword_iff s).mpr h, (CP_isValidNewPassword_iff s).mpr h]
  · have h1 : ForgotPassword.isValidNewPassword s ≠ true :=
      fun hc => h ((FP_isValidNewPassword_iff s).mp hc)
    have h2 : ChangePassword.isValidNewPassword s ≠ true :=
      fun hc => h ((CP_isValidNewPassword_iff s).mp hc)
    cases hf : ForgotPassword.isValidNewPassword s with
    | true => exact absurd hf h1
    | false =>
      cases hc : ChangePassword.isValidNewPassword s with
      | true => exact absurd hc h2
      | false => rfl

lemma isValidEmail_iff (s : String) :
    ForgotPassword.isValidEmail s = true ↔ '@' ∈ s.data := by
  simp only [ForgotPassword.isValidEmail, List.any_eq_true, beq_iff_eq]
  constructor
  · rintro ⟨c, hc, rfl⟩
    exact hc
  · intro h
    exact ⟨'@', h, rfl⟩

lemma isValidPhone_chars {s : String} (h : ForgotPassword.isValidPhone s = true) :
    ∃ a b c e f g p q r t : Char,
      s.data = [a, b, c, '-', e, f, g, '-', p, q, r, t] ∧
      isDigitChar a = true ∧ isDigitChar b = true ∧ isDigitChar c = true ∧
      isDigitChar e = true ∧ isDigitChar f = true ∧ isDigitChar g = true ∧
      isDigitChar p = true ∧ isDigitChar q = true ∧ isDigitChar r = true ∧
      isDigitChar t = true := by
  unfold ForgotPassword.isValidPhone at h
  split at h
  · rename_i a b c d1 e f g d2 p q r t heq
    simp only [Bool.and_eq_true, beq_iff_eq] at h
    obtain ⟨⟨⟨⟨⟨⟨⟨⟨⟨⟨⟨ha, hb⟩, hc⟩, hd1⟩, he⟩, hf⟩, hg⟩, hd2⟩, hp⟩, hq⟩, hr⟩, ht⟩ := h
    subst hd1
    subst hd2
    exact ⟨a, b, c, e, f, g, p, q, r, t, heq, ha, hb, hc, he, hf, hg, hp, hq, hr, ht⟩
  · exact absurd h (by simp)

lemma isValidPhone_iff (s : String) :
    ForgotPassword.isValidPhone s = true ↔
      ∃ l1 l2 l3 : List Char,
        s.data = l1 ++ '-' :: (l2 ++ '-' :: l3) ∧
        l1.length = 3 ∧ l2.length = 3 ∧ l3.length = 4 ∧
        (∀ c ∈ l1, isDigitChar c = true) ∧
        (∀ c ∈ l2, isDigitChar c = true) ∧
        (∀ c ∈ l3, isDigitChar c = true) := by
  constructor
  · intro h
    obtain ⟨a, b, c, e, f, g, p, q, r, t, hd, ha, hb, hc, he, hf, hg, hp, hq, hr, ht⟩ :=
      isValidPhone_chars h
    refine ⟨[a, b, c], [e, f, g], [p, q, r, t], by simpa using hd, rfl, rfl, rfl, ?_, ?_, ?_⟩
    · intro x hx
      simp only [List.mem_cons, List.not_mem_nil, or_false] at hx
      rcases hx with rfl | rfl | rfl <;> assumption
    · intro x hx
      simp only [List.mem_cons, List.not_mem_nil, or_false] at hx
      rcases hx with rfl | rfl | rfl <;> assumption
    · intro x hx
      simp only [List.mem_cons, List.not_mem_nil, or_false] at hx
      rcases hx with rfl | rfl | rfl | rfl <;> assumption
  · rintro ⟨l1, l2, l3, hd, h1, h2, h3, hd1, hd2, hd3⟩
    rcases l1 with _ | ⟨a, _ | ⟨b, _ | ⟨c, _ | ⟨a4, l1⟩⟩⟩⟩ <;> simp at h1
    rcases l2 with _ | ⟨e, _ | ⟨f, _ | ⟨g, _ | ⟨e4, l2⟩⟩⟩⟩ <;> simp at h2
    rcases l3 with _ | ⟨p, _ | ⟨q, _ | ⟨r, _ | ⟨t, _ | ⟨t5, l3⟩⟩⟩⟩⟩ <;> simp at h3
    simp only [List.cons_append, List.nil_append] at hd
    simp [ForgotPassword.isValidPhone, hd, hd1 a (by simp), hd1 b (by simp), hd1 c (by simp),
      hd2 e (by simp), hd2 f (by simp), hd2 g (by simp),
      hd3 p (by simp), hd3 q (by simp), hd3 r (by simp), hd3 t (by simp)]

lemma updateCredential_accounts (db : Database) (id : Int) (hsh : Hash) (salt : List Nat) :
    (updateCredential db id hsh salt).accounts = db.accounts := rfl

lemma updateCredential_mem_of_ne (db : Database) (id : Int) (hsh : Hash) (salt : List Nat)
    (c : Credential) (hc : c ∈ db.credentials) (hne : c.account_id ≠ id) :
    c ∈ (updateCredential db id hsh salt).credentials := by
  unfold updateCredential
  refine List.mem_map.mpr ⟨c, hc, ?_⟩
  rw [if_neg (by simpa using hne)]

lemma updateCredential_mem_elim (db : Database) (id : Int) (hsh : Hash) (salt : List Nat)
    (c : Credential) (hc : c ∈ (updateCredential db id hsh salt).credentials) :
    (c.account_id ≠ id → c ∈ db.credentials) ∧
    (c.account_id = id → c.salted_hash = hsh ∧ c.salt = salt) := by
  unfold updateCredential at hc
  obtain ⟨c0, hc0, hmap⟩ := List.mem_map.mp hc
  by_cases h0 : c0.account_id = id
  · rw [if_pos (by simpa using h0)] at hmap
    subst hmap
    exact ⟨fun hne => absurd h0 (by simpa using hne), fun _ => ⟨rfl, rfl⟩⟩
  · rw [if_neg (by simpa using h0)] at hmap
    subst hmap
    exact ⟨fun _ => hc0, fun he => absurd he h0⟩

namespace ChangePassword

lemma cpHandler_missing (env : Env) (db : Database) (body : Body)
    (h : (isStringProvided body.username && isStringProvided body.password &&
      isStringProvided body.newPassword && isStringProvided body.confirmNewPassword) = false) :
    changePasswordHandler env db body =
      ⟨⟨400, "Missing required information", none⟩, db, 0⟩ := by
  simp [changePasswordHandler, h]

lemma cpHandler_invalid (env : Env) (db : Database) (u p np cnp : String)
    (hu : u ≠ "") (hp : p ≠ "") (hnp : np ≠ "") (hcnp : cnp ≠ "")
    (hv : isValidNewPassword np = false) :
    changePasswordHandler env db ⟨some u, some p, some np, some cnp⟩ =
      ⟨⟨400, "Invalid New Password  - please refer to documentation", none⟩, db, 0⟩ := by
  simp [changePasswordHandler, isStringProvided, hu, hp, hnp, hcnp, hv]

lemma cpHandler_notFound (env : Env) (db : Database) (u p np cnp : String)
    (hu : u ≠ "") (hp : p ≠ "") (hnp : np ≠ "") (hcnp : cnp ≠ "")
    (hv : isValidNewPassword np = true)
    (hlf : env.lookupFails = false)
    (hlk : lookupAccount db u = []) :
    changePasswordHandler env db ⟨some u, some p, some np, some cnp⟩ =
      ⟨⟨400, "User does not exist within the database with the provided inputs", none⟩,
       db, 1⟩ := by
  simp [changePasswordHandler, isStringProvided, hu, hp, hnp, hcnp, hv, hlf, hlk]

lemma cpHandler_idZero (env : Env) (db : Database) (u p np cnp : String)
    (a : Account) (rest : List Account)
    (hu : u ≠ "") (hp : p ≠ "") (hnp : np ≠ "") (hcnp : cnp ≠ "")
    (hv : isValidNewPassword np = true)
    (hlf : env.lookupFails = false)
    (hlk : lookupAccount db u = a :: rest)
    (hid : a.account_id = 0) :
    changePasswordHandler env db ⟨some u, some p, some np, some cnp⟩ =
      ⟨⟨500, "Server error - contact support", none⟩, db, 1⟩ := by
  simp [changePasswordHandler, isStringProvided, hu, hp, hnp, hcnp, hv, hlf, hlk, hid]

lemma cpHandler_updateFail (env : Env) (db : Database) (u p np cnp : String)
    (a : Account) (rest : List Account)
    (hu : u ≠ "") (hp : p ≠ "") (hnp : np ≠ "") (hcnp : cnp ≠ "")
    (hv : isValidNewPassword np = true)
    (hlf : env.lookupFails = false)
    (hlk : lookupAccount db u = a :: rest)
    (hid : a.account_id ≠ 0)
    (huf : env.updateFails = true) :
    changePasswordHandler env db ⟨some u, some p, some np, some cnp⟩ =
      ⟨⟨500, "Server error - contact support", none⟩, db, 2⟩ := by
  have h0 : (a.account_id == 0) = false := by simpa using hid
  simp [changePasswordHandler, isStringProvided, hu, hp, hnp, hcnp, hv, hlf, hlk, h0, huf]

lemma cpHandler_success (env : Env) (db : Database) (u p np cnp : String)
    (a : Account) (rest : List Account)
    (hu : u ≠ "") (hp : p ≠ "") (hnp : np ≠ "") (hcnp : cnp ≠ "")
    (hv : isValidNewPassword np = true)
    (hlf : env.lookupFails = false)
    (hlk : lookupAccount db u = a :: rest)
    (hid : a.account_id ≠ 0)
    (huf : env.updateFails = false) :
    changePasswordHandler env db ⟨some u, some p, some np, some cnp⟩ =
      ⟨⟨200, "Password updated successfully",
        some (jwtSign a.account_id env.secret 15)⟩,
       updateCredential db a.account_id
         (generateHash np (generateSalt env.rng 32)) (generateSalt env.rng 32), 2⟩ := by
  have h0 : (a.account_id == 0) = false := by simpa using hid
  simp [changePasswordHandler, isStringProvided, hu, hp, hnp, hcnp, hv, hlf, hlk, h0, huf]

end ChangePassword

namespace ForgotPassword

lemma fpHandler_missing (env : Env) (db : Database) (body : Body)
    (h : (isStringProvided body.username && isStringProvided body.email &&
      isStringProvided body.newPassword && isStringProvided body.confirmNewPassword &&
      isStringProvided body.phone) = false) :
    forgotPasswordHandler env db body =
      ⟨⟨400, "Missing a parameter", none⟩, db, 0⟩ := by
  simp [forgotPasswordHandler, h]

lemma fpHandler_invalid (env : Env) (db : Database) (u e ph np cnp : String)
    (hu : u ≠ "") (he : e ≠ "") (hph : ph ≠ "") (hnp : np ≠ "") (hcnp : cnp ≠ "")
    (hv : isValidNewPassword np = false) :
    forgotPasswordHandler env db ⟨some u, some e, some ph, some np, some cnp⟩ =
      ⟨⟨400, "Invalid new password - please refer to documentation", none⟩, db, 0⟩ := by
  simp [forgotPasswordHandler, isStringProvided, hu, he, hph, hnp, hcnp, hv]

lemma fpHandler_mismatch (env : Env) (db : Database) (u e ph np cnp : String)
    (hu : u ≠ "") (he : e ≠ "") (hph : ph ≠ "") (hnp : np ≠ "") (hcnp : cnp ≠ "")
    (hv : isValidNewPassword np = true)
    (hne : np ≠ cnp) :
    forgotPasswordHandler env db ⟨some u, some e, some ph, some np, some cnp⟩ =
      ⟨⟨400, "The passwords do not match", none⟩, db, 0⟩ := by
  have hm : (np == cnp) = false := by simpa using hne
  simp [forgotPasswordHandler, isStringProvided, hu, he, hph, hnp, hcnp, hv, hm]

lemma fpHandler_badEmail (env : Env) (db : Database) (u e ph np cnp : String)
    (hu : u ≠ "") (he : e ≠ "") (hph : ph ≠ "") (hnp : np ≠ "") (hcnp : cnp ≠ "")
    (hv : isValidNewPassword np = true)
    (heq : np = cnp)
    (hem : isValidEmail e = false) :
    forgotPasswordHandler env db ⟨some u, some e, some ph, some np, some cnp⟩ =
      ⟨⟨400, "Invalid email - please refer to registration documentation", none⟩, db, 0⟩ := by
  subst heq
  simp [forgotPasswordHandler, isStringProvided, hu, he, hph, hnp, hcnp, hv, hem]

lemma fpHandler_badPhone (env : Env) (db : Database) (u e ph np cnp : String)
    (hu : u ≠ "") (he : e ≠ "") (hph : ph ≠ "") (hnp : np ≠ "") (hcnp : cnp ≠ "")
    (hv : isValidNewPassword np = true)
    (heq : np = cnp)
    (hem : isValidEmail e = true)
    (hphv : isValidPhone ph = false) :
    forgotPasswordHandler env db ⟨some u, some e, some ph, some np, some cnp⟩ =
      ⟨⟨400, "Invalid phone number - please refer to registration documentation", none⟩,
       db, 0⟩ := by
  subst heq
  simp [forgotPasswordHandler, isStringProvided, hu, he, hph, hnp, hcnp, hv, hem, hphv]

lemma fpHandler_notFound (env : Env) (db : Database) (u e ph np cnp : String)
    (hu : u ≠ "") (he : e ≠ "") (hph : ph ≠ "") (hnp : np ≠ "") (hcnp : cnp ≠ "")
    (hv : isValidNewPassword np = true)
    (heq : np = cnp)
    (hem : isValidEmail e = true)
    (hphv : isValidPhone ph = true)
    (hlf : env.lookupFails = false)
    (hlk : lookupAccount db u e ph = []) :
    forgotPasswordHandler env db ⟨some u, some e, some ph, some np, some cnp⟩ =
      ⟨⟨404, "User does not exist within the Database", none⟩, db, 1⟩ := by
  subst heq
  simp [forgotPasswordHandler, isStringProvided, hu, he, hph, hnp, hcnp, hv, hem, hphv,
    hlf, hlk]

lemma fpHandler_idZero (env : Env) (db : Database) (u e ph np cnp : String)
    (a : Account) (rest : List Account)
    (hu : u ≠ "") (he : e ≠ "") (hph : ph ≠ "") (hnp : np ≠ "") (hcnp : cnp ≠ "")
    (hv : isValidNewPassword np = true)
    (heq : np = cnp)
    (hem : isValidEmail e = true)
    (hphv : isValidPhone ph = true)
    (hlf : env.lookupFails = false)
    (hlk : lookupAccount db u e ph = a :: rest)
    (hid : a.account_id = 0) :
    forgotPasswordHandler env db ⟨some u, some e, some ph, some np, some cnp⟩ =
      ⟨⟨500, "Unexpected issue on retrieving user in the database", none⟩, db, 1⟩ := by
  subst heq
  simp [forgotPasswordHandler, isStringProvided, hu, he, hph, hnp, hcnp, hv, hem, hphv,
    hlf, hlk, hid]

lemma fpHandler_updateFail (env : Env) (db : Database) (u e ph np cnp : String)
    (a : Account) (rest : List Account)
    (hu : u ≠ "") (he : e ≠ "") (hph : ph ≠ "") (hnp : np ≠ "") (hcnp : cnp ≠ "")
    (hv : isValidNewPassword np = true)
    (heq : np = cnp)
    (hem : isValidEmail e = true)
    (hphv : isValidPhone ph = true)
    (hlf : env.lookupFails = false)
    (hlk : lookupAccount db u e ph = a :: rest)
    (hid : a.account_id ≠ 0)
    (huf : env.updateFails = true) :
    forgotPasswordHandler env db ⟨some u, some e, some ph, some np, some cnp⟩ =
      ⟨⟨500, "Unexpected issue on updating password in the database", none⟩, db, 2⟩ := by
  subst heq
  have h0 : (a.account_id == 0) = false := by simpa using hid
  simp [forgotPasswordHandler, isStringProvided, hu, he, hph, hnp, hcnp, hv, hem, hphv,
    hlf, hlk, h0, huf]

lemma fpHandler_success (env : Env) (db : Database) (u e ph np cnp : String)
    (a : Account) (rest : List Account)
    (hu : u ≠ "") (he : e ≠ "") (hph : ph ≠ "") (hnp : np ≠ "") (hcnp : cnp ≠ "")
    (hv : isValidNewPassword np = true)
    (heq : np = cnp)
    (hem : isValidEmail e = true)
    (hphv : isValidPhone ph = true)
    (hlf : env.lookupFails = false)
    (hlk : lookupAccount db u e ph = a :: rest)
    (hid : a.account_id ≠ 0)
    (huf : env.updateFails = false) :
    forgotPasswordHandler env db ⟨some u, some e, some ph, some np, some cnp⟩ =
      ⟨⟨200, "Password updated successfully",
        some (jwtSign a.account_id env.secret 15)⟩,
       updateCredential db a.account_id
         (generateHash np (generateSalt env.rng 32)) (generateSalt env.rng 32), 2⟩ := by
  subst heq
  have h0 : (a.account_id == 0) = false := by simpa using hid
  simp [forgotPasswordHandler, isStringProvided, hu, he, hph, hnp, hcnp, hv, hem, hphv,
    hlf, hlk, h0, huf]

end ForgotPassword

/-! ### Claims -/

/-- Claim C1 is false as stated: a /changePassword request with every
required field present and a newPassword that differs from
confirmNewPassword is not answered with a 400 password-mismatch error —
the route never compares the two fields, the request reaches the
Account Store (two statements) and here succeeds with 200. -/
theorem C1_counterexample :
    (some "Abcde1!2" : Option String) ≠ some "Zz9#different" ∧
    (ChangePassword.changePasswordHandler envOK db0
      ⟨some "bob", some "anything", some "Abcde1!2", some "Zz9#different"⟩).response.status
      = 200 ∧
    (ChangePassword.changePasswordHandler envOK db0
      ⟨some "bob", some "anything", some "Abcde1!2", some "Zz9#different"⟩).storeQueries
      = 2 := by
  refine ⟨by decide, by decide, by decide⟩

/-- Claim C1 (amended): for every forgot-password request with all
required fields present and newPassword differing from
confirmNewPassword, the response is 400 — the password-mismatch error
when the new password passes the policy, the invalid-new-password error
otherwise — and no Account Store access occurs; the /changePassword
route performs no such comparison (see C1_counterexample). -/
theorem C1_theorem (env : Env) (db : Database) (u e ph np cnp : String)
    (hu : u ≠ "") (he : e ≠ "") (hph : ph ≠ "") (hnp : np ≠ "") (hcnp : cnp ≠ "")
    (hne : np ≠ cnp) :
    (ForgotPassword.forgotPasswordHandler env db
      ⟨some u, some e, some ph, some np, some cnp⟩).response.status = 400 ∧
    (ForgotPassword.forgotPasswordHandler env db
      ⟨some u, some e, some ph, some np, some cnp⟩).storeQueries = 0 ∧
    (ForgotPassword.forgotPasswordHandler env db
      ⟨some u, some e, some ph, some np, some cnp⟩).db = db ∧
    (ForgotPassword.isValidNewPassword np = true →
      (ForgotPassword.forgotPasswordHandler env db
        ⟨some u, some e, some ph, some np, some cnp⟩).response.message
        = "The passwords do not match") := by
  by_cases hv : ForgotPassword.isValidNewPassword np = true
  · rw [ForgotPassword.fpHandler_mismatch env db u e ph np cnp hu he hph hnp hcnp hv hne]
    exact ⟨rfl, rfl, rfl, fun _ => rfl⟩
  · have hv2 : ForgotPassword.isValidNewPassword np = false := by
      cases h : ForgotPassword.isValidNewPassword np
      · rfl
      · exact absurd h hv
    rw [ForgotPassword.fpHandler_invalid env db u e ph np cnp hu he hph hnp hcnp hv2]
    exact ⟨rfl, rfl, rfl, fun hc => absurd hc hv⟩

/-- Witness for C1_theorem at a concrete mismatching forgot-password
request. -/
theorem C1_witness :
    (ForgotPassword.forgotPasswordHandler envOK db0
      ⟨some "alice", some "a@x.com", some "123-456-7890", some "Abcde1!2",
       some "Xx1!zzzz"⟩).response.status = 400 ∧
    (ForgotPassword.forgotPasswordHandler envOK db0
      ⟨some "alice", some "a@x.com", some "123-456-7890", some "Abcde1!2",
       some "Xx1!zzzz"⟩).storeQueries = 0 ∧
    (ForgotPassword.forgotPasswordHandler envOK db0
      ⟨some "alice", some "a@x.com", some "123-456-7890", some "Abcde1!2",
       some "Xx1!zzzz"⟩).db = db0 ∧
    (ForgotPassword.isValidNewPassword "Abcde1!2" = true →
      (ForgotPassword.forgotPasswordHandler envOK db0
        ⟨some "alice", some "a@x.com", some "123-456-7890", some "Abcde1!2",
         some "Xx1!zzzz"⟩).response.message = "The passwords do not match") :=
  C1_theorem envOK db0 "alice" "a@x.com" "123-456-7890" "Abcde1!2" "Xx1!zzzz"
    (by decide) (by decide) (by decide) (by decide) (by decide) (by decide)

/-- Claim C2: the /changePassword outcome — status, body, database and
statements issued — is identical for any two requests that differ only
in the (non-empty) current-password field, because the stored credential
is never consulted for it; and for an existing username (resolved to a
non-zero identifier by a working store) with a policy-valid matching new
password the response is 200 with a token, whatever the
current-password field held. -/
theorem C2_theorem (env : Env) (db : Database) (u np cnp p1 p2 : String)
    (hp1 : p1 ≠ "") (hp2 : p2 ≠ "") :
    ChangePassword.changePasswordHandler env db ⟨some u, some p1, some np, some cnp⟩ =
      ChangePassword.changePasswordHandler env db ⟨some u, some p2, some np, some cnp⟩ ∧
    (∀ (a : Account) (rest : List Account),
      u ≠ "" →
      ChangePassword.isValidNewPassword np = true →
      np = cnp →
      env.lookupFails = false →
      env.updateFails = false →
      ChangePassword.lookupAccount db u = a :: rest →
      a.account_id ≠ 0 →
      (ChangePassword.changePasswordHandler env db
        ⟨some u, some p1, some np, some cnp⟩).response.status = 200 ∧
      (ChangePassword.changePasswordHandler env db
        ⟨some u, some p1, some np, some cnp⟩).response.resetToken
        = some (jwtSign a.account_id env.secret 15)) := by
  constructor
  · simp [ChangePassword.changePasswordHandler, isStringProvided, hp1, hp2]
  · intro a rest hu hv heq hlf huf hlk hid
    have hnp : np ≠ "" := ne_empty_of_eight_le ((CP_isValidNewPassword_iff np).mp hv).1
    have hcnp : cnp ≠ "" := heq ▸ hnp
    rw [ChangePassword.cpHandler_success env db u p1 np cnp a rest hu hp1 hnp hcnp hv hlf hlk
      hid huf]
    exact ⟨rfl, rfl⟩

/-- Witness for C2_theorem: the same change-password request with two
different current-password values, against an existing account. -/
theorem C2_witness :
    (ChangePassword.changePasswordHandler envOK db0
        ⟨some "bob", some "correct horse", some "Abcde1!2", some "Abcde1!2"⟩ =
      ChangePassword.changePasswordHandler envOK db0
        ⟨some "bob", some "totally wrong", some "Abcde1!2", some "Abcde1!2"⟩) ∧
    (ChangePassword.changePasswordHandler envOK db0
      ⟨some "bob", some "correct horse", some "Abcde1!2", some "Abcde1!2"⟩).response.status
      = 200 ∧
    (ChangePassword.changePasswordHandler envOK db0
      ⟨some "bob", some "correct horse", some "Abcde1!2", some "Abcde1!2"⟩).response.resetToken
      = some (jwtSign bob.account_id envOK.secret 15) := by
  have h := C2_theorem envOK db0 "bob" "Abcde1!2" "Abcde1!2" "correct horse" "totally wrong"
    (by decide) (by decide)
  have h2 := h.2 bob [] (by decide) (by decide) rfl rfl rfl (by decide) (by decide)
  exact ⟨h.1, h2.1, h2.2⟩

/-- Claim C3 is false as stated: a /changePassword request that passes
field and policy validation but names an unknown username is answered
400, not 404. -/
theorem C3_counterexample :
    (ChangePassword.changePasswordHandler envOK db0
      ⟨some "nobody", some "pw", some "Abcde1!2", some "Abcde1!2"⟩).response.status ≠ 404 ∧
    (ChangePassword.changePasswordHandler envOK db0
      ⟨some "nobody", some "pw", some "Abcde1!2", some "Abcde1!2"⟩).response.status = 400 := by
  refine ⟨by decide, by decide⟩

/-- Claim C3 (amended): for every change-password request that passes
field and policy validation but whose username matches no account (the
lookup statement itself succeeding), the response status is 400 — not
404 — with the user-does-not-exist message, and no credential mutation
occurs. -/
theorem C3_theorem (env : Env) (db : Database) (u p np cnp : String)
    (hu : u ≠ "") (hp : p ≠ "") (hcnp : cnp ≠ "")
    (hv : ChangePassword.isValidNewPassword np = true)
    (hlf : env.lookupFails = false)
    (hlk : ChangePassword.lookupAccount db u = []) :
    ChangePassword.changePasswordHandler env db ⟨some u, some p, some np, some cnp⟩ =
      ⟨⟨400, "User does not exist within the database with the provided inputs", none⟩,
       db, 1⟩ := by
  have hnp : np ≠ "" := ne_empty_of_eight_le ((CP_isValidNewPassword_iff np).mp hv).1
  exact ChangePassword.cpHandler_notFound env db u p np cnp hu hp hnp hcnp hv hlf hlk

/-- Witness for C3_theorem at a concrete unknown username. -/
theorem C3_witness :
    ChangePassword.changePasswordHandler envOK db0
      ⟨some "nobody", some "pw", some "Abcde1!2", some "Abcde1!2"⟩ =
      ⟨⟨400, "User does not exist within the database with the provided inputs", none⟩,
       db0, 1⟩ :=
  C3_theorem envOK db0 "nobody" "pw" "Abcde1!2" "Abcde1!2"
    (by decide) (by decide) (by decide) (by decide) rfl (by decide)

/-- Claim C4: the new-password policy check is a pure predicate holding
iff the length is between 8 and 24 inclusive with at least one
uppercase letter, one lowercase letter, one digit and one character of
the fixed special set (both routes compute the same predicate); and any
request whose newPassword fails it is answered 400 with no Account
Store access on either endpoint. -/
theorem C4_theorem :
    (∀ s : String, ChangePassword.isValidNewPassword s = true ↔
      (8 ≤ s.length ∧ s.length ≤ 24 ∧
       (∃ c ∈ s.data, isUpperChar c = true) ∧
       (∃ c ∈ s.data, isLowerChar c = true) ∧
       (∃ c ∈ s.data, isDigitChar c = true) ∧
       (∃ c ∈ s.data, isSpecialChar c = true))) ∧
    (∀ s : String,
      ForgotPassword.isValidNewPassword s = ChangePassword.isValidNewPassword s) ∧
    (∀ (env : Env) (db : Database) (u p np cnp : String),
      u ≠ "" → p ≠ "" → cnp ≠ "" →
      ChangePassword.isValidNewPassword np = false →
      (ChangePassword.changePasswordHandler env db
        ⟨some u, some p, some np, some cnp⟩).response.status = 400 ∧
      (ChangePassword.changePasswordHandler env db
        ⟨some u, some p, some np, some cnp⟩).storeQueries = 0 ∧
      (ChangePassword.changePasswordHandler env db
        ⟨some u, some p, some np, some cnp⟩).db = db) ∧
    (∀ (env : Env) (db : Database) (u e ph np cnp : String),
      u ≠ "" → e ≠ "" → ph ≠ "" → cnp ≠ "" →
      ForgotPassword.isValidNewPassword np = false →
      (ForgotPassword.forgotPasswordHandler env db
        ⟨some u, some e, some ph, some np, some cnp⟩).response.status = 400 ∧
      (ForgotPassword.forgotPasswordHandler env db
        ⟨some u, some e, some ph, some np, some cnp⟩).storeQueries = 0 ∧
      (ForgotPassword.forgotPasswordHandler env db
        ⟨some u, some e, some ph, some np, some cnp⟩).db = db) := by
  refine ⟨CP_isValidNewPassword_iff, FP_CP_isValidNewPassword, ?_, ?_⟩
  · intro env db u p np cnp hu hp hcnp hv
    by_cases hnp : np = ""
    · subst hnp
      have hm : (isStringProvided (some u) && isStringProvided (some p) &&
          isStringProvided (some "") && isStringProvided (some cnp)) = false := by
        simp [isStringProvided]
      rw [ChangePassword.cpHandler_missing env db _ hm]
      exact ⟨rfl, rfl, rfl⟩
    · rw [ChangePassword.cpHandler_invalid env db u p np cnp hu hp hnp hcnp hv]
      exact ⟨rfl, rfl, rfl⟩
  · intro env db u e ph np cnp hu he hph hcnp hv
    by_cases hnp : np = ""
    · subst hnp
      have hm : (isStringProvided (some u) && isStringProvided (some e) &&
          isStringProvided (some "") && isStringProvided (some cnp) &&
          isStringProvided (some ph)) = false := by
        simp [isStringProvided]
      rw [ForgotPassword.fpHandler_missing env db _ hm]
      exact ⟨rfl, rfl, rfl⟩
    · rw [ForgotPassword.fpHandler_invalid env db u e ph np cnp hu he hph hnp hcnp hv]
      exact ⟨rfl, rfl, rfl⟩

/-- Witness for C4_theorem: the characterisation holds of a concrete
valid password, and a 7-character password is rejected by /changePassword
with 400 and no store access. -/
theorem C4_witness :
    ChangePassword.isValidNewPassword "Abcde1!2" = true ∧
    (ChangePassword.changePasswordHandler envOK db0
      ⟨some "bob", some "pw", some "short1!", some "short1!"⟩).response.status = 400 ∧
    (ChangePassword.changePasswordHandler envOK db0
      ⟨some "bob", some "pw", some "short1!", some "short1!"⟩).storeQueries = 0 ∧
    (ForgotPassword.forgotPasswordHandler envOK db0
      ⟨some "alice", some "a@x.com", some "123-456-7890", some "short1!",
       some "short1!"⟩).response.status = 400 ∧
    (ForgotPassword.forgotPasswordHandler envOK db0
      ⟨some "alice", some "a@x.com", some "123-456-7890", some "short1!",
       some "short1!"⟩).storeQueries = 0 := by
  have h := C4_theorem
  have h3 := h.2.2.1 envOK db0 "bob" "pw" "short1!" "short1!"
    (by decide) (by decide) (by decide) (by decide)
  have h4 := h.2.2.2 envOK db0 "alice" "a@x.com" "123-456-7890" "short1!" "short1!"
    (by decide) (by decide) (by decide) (by decide) (by decide)
  exact ⟨(h.1 "Abcde1!2").mpr (by decide), h3.1, h3.2.1, h4.1, h4.2.1⟩

/-- Claim C5: for either endpoint, once the request has passed all
validation and identity resolution, a reset token is issued iff the
credential-update statement succeeds — on success the response is 200
with message "Password updated successfully" and a (non-empty) token
signed with the server secret embedding the resolved account identifier
and a fixed 15-minute expiry; on update failure the response is 500 and
no token is issued. -/
theorem C5_theorem (env : Env) (db : Database)
    (u p np cnp : String) (a : Account) (rest : List Account)
    (hu : u ≠ "") (hp : p ≠ "") (hcnp : cnp ≠ "")
    (hv : ChangePassword.isValidNewPassword np = true)
    (hlf : env.lookupFails = false)
    (hlk : ChangePassword.lookupAccount db u = a :: rest)
    (hid : a.account_id ≠ 0)
    (u2 e2 ph2 np2 cnp2 : String) (b : Account) (rest2 : List Account)
    (hu2 : u2 ≠ "") (he2 : e2 ≠ "") (hph2 : ph2 ≠ "") (hcnp2 : cnp2 ≠ "")
    (hv2 : ForgotPassword.isValidNewPassword np2 = true)
    (heq2 : np2 = cnp2)
    (hem2 : ForgotPassword.isValidEmail e2 = true)
    (hphv2 : ForgotPassword.isValidPhone ph2 = true)
    (hlk2 : ForgotPassword.lookupAccount db u2 e2 ph2 = b :: rest2)
    (hid2 : b.account_id ≠ 0) :
    (env.updateFails = false →
      (ChangePassword.changePasswordHandler env db
        ⟨some u, some p, some np, some cnp⟩).response
        = ⟨200, "Password updated successfully",
           some (jwtSign a.account_id env.secret 15)⟩) ∧
    (env.updateFails = true →
      (ChangePassword.changePasswordHandler env db
        ⟨some u, some p, some np, some cnp⟩).response.status = 500 ∧
      (ChangePassword.changePasswordHandler env db
        ⟨some u, some p, some np, some cnp⟩).response.resetToken = none ∧
      (ChangePassword.changePasswordHandler env db
        ⟨some u, some p, some np, some cnp⟩).db = db) ∧
    (env.updateFails = false →
      (ForgotPassword.forgotPasswordHandler env db
        ⟨some u2, some e2, some ph2, some np2, some cnp2⟩).response
        = ⟨200, "Password updated successfully",
           some (jwtSign b.account_id env.secret 15)⟩) ∧
    (env.updateFails = true →
      (ForgotPassword.forgotPasswordHandler env db
        ⟨some u2, some e2, some ph2, some np2, some cnp2⟩).response.status = 500 ∧
      (ForgotPassword.forgotPasswordHandler env db
        ⟨some u2, some e2, some ph2, some np2, some cnp2⟩).response.resetToken = none ∧
      (ForgotPassword.forgotPasswordHandler env db
        ⟨some u2, some e2, some ph2, some np2, some cnp2⟩).db = db) := by
  have hnp : np ≠ "" := ne_empty_of_eight_le ((CP_isValidNewPassword_iff np).mp hv).1
  have hnp2 : np2 ≠ "" := ne_empty_of_eight_le ((FP_isValidNewPassword_iff np2).mp hv2).1
  refine ⟨?_, ?_, ?_, ?_⟩
  · intro huf
    rw [ChangePassword.cpHandler_success env db u p np cnp a rest hu hp hnp hcnp hv hlf hlk
      hid huf]
  · intro huf
    rw [ChangePassword.cpHandler_updateFail env db u p np cnp a rest hu hp hnp hcnp hv hlf hlk
      hid huf]
    exact ⟨rfl, rfl, rfl⟩
  · intro huf
    rw [ForgotPassword.fpHandler_success env db u2 e2 ph2 np2 cnp2 b rest2 hu2 he2 hph2 hnp2
      hcnp2 hv2 heq2 hem2 hphv2 hlf hlk2 hid2 huf]
  · intro huf
    rw [ForgotPassword.fpHandler_updateFail env db u2 e2 ph2 np2 cnp2 b rest2 hu2 he2 hph2 hnp2
      hcnp2 hv2 heq2 hem2 hphv2 hlf hlk2 hid2 huf]
    exact ⟨rfl, rfl, rfl⟩

/-- Witness for C5_theorem: Scenario A against db0 succeeds with the
token for alice on both endpoints, and the same requests under a
failing UPDATE give 500 without a token. -/
theorem C5_witness :
    (ChangePassword.changePasswordHandler envOK db0
      ⟨some "alice", some "pw", some "Abcde1!2", some "Abcde1!2"⟩).response
      = ⟨200, "Password updated successfully",
         some (jwtSign alice.account_id envOK.secret 15)⟩ ∧
    (ForgotPassword.forgotPasswordHandler envOK db0
      ⟨some "alice", some "a@x.com", some "123-456-7890", some "Abcde1!2",
       some "Abcde1!2"⟩).response
      = ⟨200, "Password updated successfully",
         some (jwtSign alice.account_id envOK.secret 15)⟩ ∧
    (ChangePassword.changePasswordHandler envUpdateFail db0
      ⟨some "alice", some "pw", some "Abcde1!2", some "Abcde1!2"⟩).response.status = 500 ∧
    (ChangePassword.changePasswordHandler envUpdateFail db0
      ⟨some "alice", some "pw", some "Abcde1!2", some "Abcde1!2"⟩).response.resetToken
      = none ∧
    (ForgotPassword.forgotPasswordHandler envUpdateFail db0
      ⟨some "alice", some "a@x.com", some "123-456-7890", some "Abcde1!2",
       some "Abcde1!2"⟩).response.status = 500 ∧
    (ForgotPassword.forgotPasswordHandler envUpdateFail db0
      ⟨some "alice", some "a@x.com", some "123-456-7890", some "Abcde1!2",
       some "Abcde1!2"⟩).response.resetToken = none := by
  have h1 := C5_theorem envOK db0 "alice" "pw" "Abcde1!2" "Abcde1!2" alice []
    (by decide) (by decide) (by decide) (by decide) rfl (by decide) (by decide)
    "alice" "a@x.com" "123-456-7890" "Abcde1!2" "Abcde1!2" alice []
    (by decide) (by decide) (by decide) (by decide) (by decide) rfl (by decide) (by decide)
    (by decide) (by decide)
  have h2 := C5_theorem envUpdateFail db0 "alice" "pw" "Abcde1!2" "Abcde1!2" alice []
    (by decide) (by decide) (by decide) (by decide) rfl (by decide) (by decide)
    "alice" "a@x.com" "123-456-7890" "Abcde1!2" "Abcde1!2" alice []
    (by decide) (by decide) (by decide) (by decide) (by decide) rfl (by decide) (by decide)
    (by decide) (by decide)
  exact ⟨h1.1 rfl, h1.2.2.1 rfl, (h2.2.1 rfl).1, (h2.2.1 rfl).2.1,
    (h2.2.2.2 rfl).1, (h2.2.2.2 rfl).2.1⟩

/-- Claim C6: for either endpoint, a request in which any required
field for that variant is absent or empty is answered 400 with the
route's missing-parameter message, the database is unchanged, and no
Account Store access occurs. -/
theorem C6_theorem (env : Env) (db : Database)
    (bodyC : ChangePassword.Body) (bodyF : ForgotPassword.Body) :
    ((isStringProvided bodyC.username && isStringProvided bodyC.password &&
      isStringProvided bodyC.newPassword && isStringProvided bodyC.confirmNewPassword)
      = false →
      ChangePassword.changePasswordHandler env db bodyC
        = ⟨⟨400, "Missing required information", none⟩, db, 0⟩) ∧
    ((isStringProvided bodyF.username && isStringProvided bodyF.email &&
      isStringProvided bodyF.newPassword && isStringProvided bodyF.confirmNewPassword &&
      isStringProvided bodyF.phone) = false →
      ForgotPassword.forgotPasswordHandler env db bodyF
        = ⟨⟨400, "Missing a parameter", none⟩, db, 0⟩) :=
  ⟨fun h => ChangePassword.cpHandler_missing env db bodyC h,
   fun h => ForgotPassword.fpHandler_missing env db bodyF h⟩

/-- Witness for C6_theorem: a change-password body with no
current-password field and a forgot-password body with an empty phone. -/
theorem C6_witness :
    ChangePassword.changePasswordHandler envOK db0
      ⟨some "bob", none, some "Abcde1!2", some "Abcde1!2"⟩
      = ⟨⟨400, "Missing required information", none⟩, db0, 0⟩ ∧
    ForgotPassword.forgotPasswordHandler envOK db0
      ⟨some "alice", some "a@x.com", some "", some "Abcde1!2", some "Abcde1!2"⟩
      = ⟨⟨400, "Missing a parameter", none⟩, db0, 0⟩ := by
  have h := C6_theorem envOK db0
    ⟨some "bob", none, some "Abcde1!2", some "Abcde1!2"⟩
    ⟨some "alice", some "a@x.com", some "", some "Abcde1!2", some "Abcde1!2"⟩
  exact ⟨h.1 (by decide), h.2 (by decide)⟩

/-- Claim C7: for every forgot-password request that passes all field
and policy validation, identity is resolved by exact conjunctive match
on username, email and phone (an account is returned iff all three
agree), and when the triple matches no account the response is 404 with
the database unchanged after the single lookup. -/
theorem C7_theorem (env : Env) (db : Database) (u e ph np cnp : String)
    (hu : u ≠ "") (he : e ≠ "") (hph : ph ≠ "") (hcnp : cnp ≠ "")
    (hv : ForgotPassword.isValidNewPassword np = true)
    (heq : np = cnp)
    (hem : ForgotPassword.isValidEmail e = true)
    (hphv : ForgotPassword.isValidPhone ph = true)
    (hlf : env.lookupFails = false)
    (hlk : ForgotPassword.lookupAccount db u e ph = []) :
    (∀ a : Account, a ∈ ForgotPassword.lookupAccount db u e ph ↔
      (a ∈ db.accounts ∧ a.username = u ∧ a.email = e ∧ a.phone = ph)) ∧
    ForgotPassword.forgotPasswordHandler env db
      ⟨some u, some e, some ph, some np, some cnp⟩
      = ⟨⟨404, "User does not exist within the Database", none⟩, db, 1⟩ := by
  constructor
  · intro a
    simp [ForgotPassword.lookupAccount, List.mem_filter, and_assoc]
  · have hnp : np ≠ "" := ne_empty_of_eight_le ((FP_isValidNewPassword_iff np).mp hv).1
    exact ForgotPassword.fpHandler_notFound env db u e ph np cnp hu he hph hnp hcnp hv heq
      hem hphv hlf hlk

/-- Witness for C7_theorem: alice's username with bob's email matches no
account, so the triple-match lookup is empty and the response is 404. -/
theorem C7_witness :
    (alice ∈ ForgotPassword.lookupAccount db0 "alice" "b@x.com" "123-456-7890" ↔
      (alice ∈ db0.accounts ∧ alice.username = "alice" ∧ alice.email = "b@x.com" ∧
       alice.phone = "123-456-7890")) ∧
    ForgotPassword.forgotPasswordHandler envOK db0
      ⟨some "alice", some "b@x.com", some "123-456-7890", some "Abcde1!2", some "Abcde1!2"⟩
      = ⟨⟨404, "User does not exist within the Database", none⟩, db0, 1⟩ := by
  have h := C7_theorem envOK db0 "alice" "b@x.com" "123-456-7890" "Abcde1!2" "Abcde1!2"
    (by decide) (by decide) (by decide) (by decide) (by decide) rfl (by decide) (by decide)
    rfl (by decide)
  exact ⟨h.1 alice, h.2⟩

/-- Claim C8: the forgot-password email check accepts a string iff it
contains an @ character and the phone check accepts a string iff it is
digits grouped 3-3-4 separated by dashes; a request failing the email
or phone check is answered with the corresponding distinguishable 400
and no Account Store access, whatever the database holds. -/
theorem C8_theorem :
    (∀ s : String, ForgotPassword.isValidEmail s = true ↔ '@' ∈ s.data) ∧
    (∀ s : String, ForgotPassword.isValidPhone s = true ↔
      ∃ l1 l2 l3 : List Char,
        s.data = l1 ++ '-' :: (l2 ++ '-' :: l3) ∧
        l1.length = 3 ∧ l2.length = 3 ∧ l3.length = 4 ∧
        (∀ c ∈ l1, isDigitChar c = true) ∧
        (∀ c ∈ l2, isDigitChar c = true) ∧
        (∀ c ∈ l3, isDigitChar c = true)) ∧
    (∀ (env : Env) (db : Database) (u e ph np cnp : String),
      u ≠ "" → e ≠ "" → ph ≠ "" → cnp ≠ "" →
      ForgotPassword.isValidNewPassword np = true → np = cnp →
      ForgotPassword.isValidEmail e = false →
      ForgotPassword.forgotPasswordHandler env db
        ⟨some u, some e, some ph, some np, some cnp⟩
        = ⟨⟨400, "Invalid email - please refer to registration documentation", none⟩,
           db, 0⟩) ∧
    (∀ (env : Env) (db : Database) (u e ph np cnp : String),
      u ≠ "" → e ≠ "" → ph ≠ "" → cnp ≠ "" →
      ForgotPassword.isValidNewPassword np = true → np = cnp →
      ForgotPassword.isValidEmail e = true →
      ForgotPassword.isValidPhone ph = false →
      ForgotPassword.forgotPasswordHandler env db
        ⟨some u, some e, some ph, some np, some cnp⟩
        = ⟨⟨400, "Invalid phone number - please refer to registration documentation", none⟩,
           db, 0⟩) := by
  refine ⟨isValidEmail_iff, isValidPhone_iff, ?_, ?_⟩
  · intro env db u e ph np cnp hu he hph hcnp hv heq hem
    have hnp : np ≠ "" := ne_empty_of_eight_le ((FP_isValidNewPassword_iff np).mp hv).1
    exact ForgotPassword.fpHandler_badEmail env db u e ph np cnp hu he hph hnp hcnp hv heq hem
  · intro env db u e ph np cnp hu he hph hcnp hv heq hem hphv
    have hnp : np ≠ "" := ne_empty_of_eight_le ((FP_isValidNewPassword_iff np).mp hv).1
    exact ForgotPassword.fpHandler_badPhone env db u e ph np cnp hu he hph hnp hcnp hv heq
      hem hphv

/-- Witness for C8_theorem: a ten-digit dash-free phone is rejected with
the invalid-phone 400 even though the account exists, and a
dash-formatted request with an @-free email gets the invalid-email 400. -/
theorem C8_witness :
    (ForgotPassword.isValidEmail "a@x.com" = true ↔ '@' ∈ ("a@x.com" : String).data) ∧
    ForgotPassword.isValidPhone "1234567890" = false ∧
    alice ∈ db0.accounts ∧
    ForgotPassword.forgotPasswordHandler envOK db0
      ⟨some "alice", some "a@x.com", some "1234567890", some "Abcde1!2", some "Abcde1!2"⟩
      = ⟨⟨400, "Invalid phone number - please refer to registration documentation", none⟩,
         db0, 0⟩ ∧
    ForgotPassword.forgotPasswordHandler envOK db0
      ⟨some "alice", some "ax.com", some "123-456-7890", some "Abcde1!2", some "Abcde1!2"⟩
      = ⟨⟨400, "Invalid email - please refer to registration documentation", none⟩,
         db0, 0⟩ := by
  have h := C8_theorem
  refine ⟨h.1 "a@x.com", by decide, by decide, ?_, ?_⟩
  · exact h.2.2.2 envOK db0 "alice" "a@x.com" "1234567890" "Abcde1!2" "Abcde1!2"
      (by decide) (by decide) (by decide) (by decide) (by decide) rfl (by decide) (by decide)
  · exact h.2.2.1 envOK db0 "alice" "ax.com" "123-456-7890" "Abcde1!2" "Abcde1!2"
      (by decide) (by decide) (by decide) (by decide) (by decide) rfl (by decide)

/-- Claim C9: on either endpoint a successful rotation is a full
replacement issued as the single second statement: in the resulting
database the accounts are untouched, every credential row of any other
account is exactly as before, and every credential row of the resolved
account carries together the freshly generated 32-byte salt and the
hash of the new password derived with that very salt. -/
theorem C9_theorem (env : Env) (db : Database)
    (u p np cnp : String) (a : Account) (rest : List Account)
    (hu : u ≠ "") (hp : p ≠ "") (hcnp : cnp ≠ "")
    (hv : ChangePassword.isValidNewPassword np = true)
    (hlf : env.lookupFails = false)
    (hlk : ChangePassword.lookupAccount db u = a :: rest)
    (hid : a.account_id ≠ 0)
    (u2 e2 ph2 np2 cnp2 : String) (b : Account) (rest2 : List Account)
    (hu2 : u2 ≠ "") (he2 : e2 ≠ "") (hph2 : ph2 ≠ "") (hcnp2 : cnp2 ≠ "")
    (hv2 : ForgotPassword.isValidNewPassword np2 = true)
    (heq2 : np2 = cnp2)
    (hem2 : ForgotPassword.isValidEmail e2 = true)
    (hphv2 : ForgotPassword.isValidPhone ph2 = true)
    (hlk2 : ForgotPassword.lookupAccount db u2 e2 ph2 = b :: rest2)
    (hid2 : b.account_id ≠ 0)
    (huf : env.updateFails = false) :
    ((ChangePassword.changePasswordHandler env db
        ⟨some u, some p, some np, some cnp⟩).db.accounts = db.accounts ∧
     (ChangePassword.changePasswordHandler env db
        ⟨some u, some p, some np, some cnp⟩).storeQueries = 2 ∧
     (∀ c ∈ db.credentials, c.account_id ≠ a.account_id →
        c ∈ (ChangePassword.changePasswordHandler env db
          ⟨some u, some p, some np, some cnp⟩).db.credentials) ∧
     (∀ c ∈ (ChangePassword.changePasswordHandler env db
          ⟨some u, some p, some np, some cnp⟩).db.credentials,
        c.account_id ≠ a.account_id → c ∈ db.credentials) ∧
     (∀ c ∈ (ChangePassword.changePasswordHandler env db
          ⟨some u, some p, some np, some cnp⟩).db.credentials,
        c.account_id = a.account_id →
        c.salt = generateSalt env.rng 32 ∧
        c.salted_hash = generateHash np (generateSalt env.rng 32) ∧
        c.salt.length = 32)) ∧
    ((ForgotPassword.forgotPasswordHandler env db
        ⟨some u2, some e2, some ph2, some np2, some cnp2⟩).db.accounts = db.accounts ∧
     (ForgotPassword.forgotPasswordHandler env db
        ⟨some u2, some e2, some ph2, some np2, some cnp2⟩).storeQueries = 2 ∧
     (∀ c ∈ db.credentials, c.account_id ≠ b.account_id →
        c ∈ (ForgotPassword.forgotPasswordHandler env db
          ⟨some u2, some e2, some ph2, some np2, some cnp2⟩).db.credentials) ∧
     (∀ c ∈ (ForgotPassword.forgotPasswordHandler env db
          ⟨some u2, some e2, some ph2, some np2, some cnp2⟩).db.credentials,
        c.account_id ≠ b.account_id → c ∈ db.credentials) ∧
     (∀ c ∈ (ForgotPassword.forgotPasswordHandler env db
          ⟨some u2, some e2, some ph2, some np2, some cnp2⟩).db.credentials,
        c.account_id = b.account_id →
        c.salt = generateSalt env.rng 32 ∧
        c.salted_hash = generateHash np2 (generateSalt env.rng 32) ∧
        c.salt.length = 32)) := by
  have hnp : np ≠ "" := ne_empty_of_eight_le ((CP_isValidNewPassword_iff np).mp hv).1
  have hnp2 : np2 ≠ "" := ne_empty_of_eight_le ((FP_isValidNewPassword_iff np2).mp hv2).1
  rw [ChangePassword.cpHandler_success env db u p np cnp a rest hu hp hnp hcnp hv hlf hlk
    hid huf]
  rw [ForgotPassword.fpHandler_success env db u2 e2 ph2 np2 cnp2 b rest2 hu2 he2 hph2 hnp2
    hcnp2 hv2 heq2 hem2 hphv2 hlf hlk2 hid2 huf]
  refine ⟨⟨rfl, rfl, ?_, ?_, ?_⟩, ⟨rfl, rfl, ?_, ?_, ?_⟩⟩
  · intro c hc hne
    exact updateCredential_mem_of_ne db a.account_id _ _ c hc hne
  · intro c hc hne
    exact (updateCredential_mem_elim db a.account_id _ _ c hc).1 hne
  · intro c hc hcid
    obtain ⟨hh, hs⟩ := (updateCredential_mem_elim db a.account_id _ _ c hc).2 hcid
    exact ⟨hs, hh, by rw [hs]; exact generateSalt_length env.rng 32⟩
  · intro c hc hne
    exact updateCredential_mem_of_ne db b.account_id _ _ c hc hne
  · intro c hc hne
    exact (updateCredential_mem_elim db b.account_id _ _ c hc).1 hne
  · intro c hc hcid
    obtain ⟨hh, hs⟩ := (updateCredential_mem_elim db b.account_id _ _ c hc).2 hcid
    exact ⟨hs, hh, by rw [hs]; exact generateSalt_length env.rng 32⟩

/-- Witness for C9_theorem: rotating alice's credential leaves the
accounts and bob's credential untouched on both endpoints. -/
theorem C9_witness :
    (ChangePassword.changePasswordHandler envOK db0
      ⟨some "alice", some "pw", some "Abcde1!2", some "Abcde1!2"⟩).db.accounts
      = db0.accounts ∧
    (ChangePassword.changePasswordHandler envOK db0
      ⟨some "alice", some "pw", some "Abcde1!2", some "Abcde1!2"⟩).storeQueries = 2 ∧
    (⟨7, generateHash "OldBob1!" [8], [8]⟩ : Credential) ∈
      (ChangePassword.changePasswordHandler envOK db0
        ⟨some "alice", some "pw", some "Abcde1!2", some "Abcde1!2"⟩).db.credentials ∧
    (ForgotPassword.forgotPasswordHandler envOK db0
      ⟨some "alice", some "a@x.com", some "123-456-7890", some "Abcde1!2",
       some "Abcde1!2"⟩).db.accounts = db0.accounts := by
  have h := C9_theorem envOK db0 "alice" "pw" "Abcde1!2" "Abcde1!2" alice []
    (by decide) (by decide) (by decide) (by decide) rfl (by decide) (by decide)
    "alice" "a@x.com" "123-456-7890" "Abcde1!2" "Abcde1!2" alice []
    (by decide) (by decide) (by decide) (by decide) (by decide) rfl (by decide) (by decide)
    (by decide) (by decide) rfl
  refine ⟨h.1.1, h.1.2.1, ?_, h.2.1⟩
  exact h.1.2.2.1 ⟨7, generateHash "OldBob1!" [8], [8]⟩ (by decide) (by decide)

/-- Claim C10: on either endpoint, when identity resolution succeeds
but the resolved account identifier is 0, the falsiness guard on the
stashed id fires: the response is 500 and no credential update is
issued (the database is unchanged after the single lookup statement). -/
theorem C10_theorem (env : Env) (db : Database)
    (u p np cnp : String) (a : Account) (rest : List Account)
    (hu : u ≠ "") (hp : p ≠ "") (hcnp : cnp ≠ "")
    (hv : ChangePassword.isValidNewPassword np = true)
    (hlf : env.lookupFails = false)
    (hlk : ChangePassword.lookupAccount db u = a :: rest)
    (hid : a.account_id = 0)
    (u2 e2 ph2 np2 cnp2 : String) (b : Account) (rest2 : List Account)
    (hu2 : u2 ≠ "") (he2 : e2 ≠ "") (hph2 : ph2 ≠ "") (hcnp2 : cnp2 ≠ "")
    (hv2 : ForgotPassword.isValidNewPassword np2 = true)
    (heq2 : np2 = cnp2)
    (hem2 : ForgotPassword.isValidEmail e2 = true)
    (hphv2 : ForgotPassword.isValidPhone ph2 = true)
    (hlk2 : ForgotPassword.lookupAccount db u2 e2 ph2 = b :: rest2)
    (hid2 : b.account_id = 0) :
    ChangePassword.changePasswordHandler env db ⟨some u, some p, some np, some cnp⟩
      = ⟨⟨500, "Server error - contact support", none⟩, db, 1⟩ ∧
    ForgotPassword.forgotPasswordHandler env db
      ⟨some u2, some e2, some ph2, some np2, some cnp2⟩
      = ⟨⟨500, "Unexpected issue on retrieving user in the database", none⟩, db, 1⟩ := by
  have hnp : np ≠ "" := ne_empty_of_eight_le ((CP_isValidNewPassword_iff np).mp hv).1
  have hnp2 : np2 ≠ "" := ne_empty_of_eight_le ((FP_isValidNewPassword_iff np2).mp hv2).1
  exact ⟨ChangePassword.cpHandler_idZero env db u p np cnp a rest hu hp hnp hcnp hv hlf hlk hid,
    ForgotPassword.fpHandler_idZero env db u2 e2 ph2 np2 cnp2 b rest2 hu2 he2 hph2 hnp2 hcnp2
      hv2 heq2 hem2 hphv2 hlf hlk2 hid2⟩

/-- Witness for C10_theorem: the account zed has identifier 0; both
pipelines resolve it and then answer 500 without updating anything. -/
theorem C10_witness :
    ChangePassword.changePasswordHandler envOK db0
      ⟨some "zed", some "pw", some "Abcde1!2", some "Abcde1!2"⟩
      = ⟨⟨500, "Server error - contact support", none⟩, db0, 1⟩ ∧
    ForgotPassword.forgotPasswordHandler envOK db0
      ⟨some "zed", some "z@x.com", some "111-222-3333", some "Abcde1!2", some "Abcde1!2"⟩
      = ⟨⟨500, "Unexpected issue on retrieving user in the database", none⟩, db0, 1⟩ :=
  C10_theorem envOK db0 "zed" "pw" "Abcde1!2" "Abcde1!2" zed []
    (by decide) (by decide) (by decide) (by decide) rfl (by decide) (by decide)
    "zed" "z@x.com" "111-222-3333" "Abcde1!2" "Abcde1!2" zed []
    (by decide) (by decide) (by decide) (by decide) (by decide) rfl (by decide) (by decide)
    (by decide) (by decide)
